import Mathlib

/-!
Verification of the m-onty note-ingestion pipeline.

Shallow embedding of the three source modules:
  * `preprocess.py`   — `ImagePreprocessor` (orientation detection, rotation,
    the `process_image` normalization pipeline and its metadata trace);
  * `ocr_vision.py`   — `VisionOCR.extract_text_and_analyze` (tolerant
    three-tier response parsing and running-cost accounting);
  * `ingest_notes.py` — `NoteIngestionPipeline.process_single_image` and
    `process_directory` (per-image orchestration, batch aggregation).

External collaborators (OpenCV filters, the vision model, the JSON library,
the filesystem) are passed in as explicit function / `Except` parameters, as
the spec treats them: black boxes with declared contracts.  Numeric values
that are Python floats in the source are modelled as exact rationals `ℚ`.
-/

namespace MOnty

/-! ## Images

A decoded pixel buffer (`np.ndarray`): explicit height, width and a pixel
function.  The pixel payload is a natural number standing for the packed
channel value; none of the verified properties inspect it. -/

structure Image where
  height : ℕ
  width : ℕ
  pixel : Fin height → Fin width → ℕ

/-- Embeds `cv2.rotate(image, cv2.ROTATE_90_CLOCKWISE)`:
`dst(r, c) = src(h - 1 - c, r)`, dimensions swapped. -/
def rotate90cw (I : Image) : Image where
  height := I.width
  width := I.height
  pixel r c := I.pixel ⟨I.height - 1 - c.val, by omega⟩ ⟨r.val, r.isLt⟩

/-- Embeds `cv2.rotate(image, cv2.ROTATE_180)`: `dst(r, c) = src(h - 1 - r, w - 1 - c)`. -/
def rotate180 (I : Image) : Image where
  height := I.height
  width := I.width
  pixel r c := I.pixel ⟨I.height - 1 - r.val, by omega⟩ ⟨I.width - 1 - c.val, by omega⟩

/-- Embeds `cv2.rotate(image, cv2.ROTATE_90_COUNTERCLOCKWISE)`:
`dst(r, c) = src(c, w - 1 - r)`, dimensions swapped. -/
def rotate90ccw (I : Image) : Image where
  height := I.width
  width := I.height
  pixel r c := I.pixel ⟨c.val, c.isLt⟩ ⟨I.width - 1 - r.val, by omega⟩

/-- Embeds `ImagePreprocessor.rotate_image`.  The three quarter-turn cases are the
exact transpositions of the source; the arbitrary-angle branch is the external
`cv2.warpAffine` call (cubic interpolation, replicated borders), passed in as
the `warpAffine` parameter since it is a library primitive. -/
def rotate_image (warpAffine : Image → ℚ → Image) (image : Image) (angle : ℚ) : Image :=
  if angle = 0 then image
  else if angle = 90 then rotate90cw image
  else if angle = 180 then rotate180 image
  else if angle = 270 then rotate90ccw image
  else warpAffine image angle

/-! ## Orientation detection

`detect_orientation` converts the image to gray, thresholds, runs Canny and
`cv2.HoughLines`; those four steps are external image primitives whose net
product is the list of detected line angles (in degrees, `np.degrees θ`).
The embedding therefore takes that angle list as input: `[]` models
`lines is None` (Hough found nothing).  What the source computes from the
angles — the `np.histogram` over bin edges `[0, 45, 135, 225, 315, 360]`,
`np.argmax`, and the bin-to-angle dispatch — is embedded exactly. -/

/-- One bin of `np.histogram` over edges `[0, 45, 135, 225, 315, 360]`:
half-open `[lo, hi)` for the first four bins, closed `[lo, hi]` for the last
(NumPy closes the final bin).  Values outside the edge range are not counted. -/
def binCount (angles : List ℚ) (lo hi : ℚ) (isLast : Bool) : ℕ :=
  angles.countP fun a => decide (lo ≤ a) && (if isLast then decide (a ≤ hi) else decide (a < hi))

/-- Embeds `np.argmax` on a five-element histogram: the first index attaining the
maximum value. -/
def argmax5 (c0 c1 c2 c3 c4 : ℕ) : ℕ :=
  let m := max c0 (max c1 (max c2 (max c3 c4)))
  if c0 = m then 0 else if c1 = m then 1 else if c2 = m then 2
  else if c3 = m then 3 else 4

/-- Embeds `ImagePreprocessor.detect_orientation`, from the detected line angles on.
`angles = []` is the `lines is None` branch (return `0.0` with a warning). -/
def detect_orientation (angles : List ℚ) : ℚ :=
  if angles.isEmpty then 0
  else
    let c0 := binCount angles 0 45 false
    let c1 := binCount angles 45 135 false
    let c2 := binCount angles 135 225 false
    let c3 := binCount angles 225 315 false
    let c4 := binCount angles 315 360 true
    let dominant := argmax5 c0 c1 c2 c3 c4
    if dominant = 0 ∨ dominant = 4 then 0
    else if dominant = 1 then 90
    else if dominant = 2 then 180
    else 270

/-! ## The normalization pipeline -/

/-- The metadata dict built by `process_image` (`original_path` elided: the
claims never consult it). -/
structure PMeta where
  original_size : ℕ × ℕ
  rotation_applied : ℚ
  steps : List String
  final_size : ℕ × ℕ
deriving DecidableEq

/-- Python `str(float)` for the angles `detect_orientation` can produce, used
by the f-string `f'rotated_\x7bangle\x7ddeg'`. -/
def angleRepr (a : ℚ) : String :=
  if a = 90 then "90.0" else if a = 180 then "180.0"
  else if a = 270 then "270.0" else toString a

/-- The step name `f'rotated_\x7bangle\x7ddeg'`. -/
def rotStepName (a : ℚ) : String := "rotated_" ++ angleRepr a ++ "deg"

/-- Embeds `ImagePreprocessor.process_image`, after the `cv2.imread` load (an image
that fails to decode raises before the metadata dict exists, so the embedding
starts from the decoded buffer).  External primitives: `hough` (gray /
threshold / Canny / HoughLines, yielding the line-angle list), `warpAffine`
(arbitrary-angle fallback of `rotate_image`), `bilateral`
(`cv2.bilateralFilter`), `clahe` (the LAB-space CLAHE enhancement). -/
def process_image (hough : Image → List ℚ) (warpAffine : Image → ℚ → Image)
    (bilateral clahe : Image → Image) (image : Image)
    (auto_orient enhance denoise : Bool) : Image × PMeta :=
  let meta : PMeta :=
    { original_size := (image.height, image.width)
      rotation_applied := 0
      steps := []
      final_size := (0, 0) }
  let step1 : Image × PMeta :=
    if auto_orient then
      let angle := detect_orientation (hough image)
      if angle ≠ 0 then
        (rotate_image warpAffine image angle,
         { meta with rotation_applied := angle, steps := meta.steps ++ [rotStepName angle] })
      else (image, meta)
    else (image, meta)
  let step2 : Image × PMeta :=
    if denoise then (bilateral step1.1, { step1.2 with steps := step1.2.steps ++ ["denoised"] })
    else step1
  let step3 : Image × PMeta :=
    if enhance then (clahe step2.1, { step2.2 with steps := step2.2.steps ++ ["contrast_enhanced"] })
    else step2
  (step3.1, { step3.2 with final_size := (step3.1.height, step3.1.width) })

/-! ## Vision extraction client (`ocr_vision.py`)

The chat-completion call is the external collaborator: the embedding of
`extract_text_and_analyze` starts from its observable outcome — the response
body `content` and the reported token counts — and embeds everything the
source computes from them: the three-tier parse with its fallback record, and
the cost accounting over `self.total_cost`. -/

/-- Python substring membership `pat in s`, on character lists:
`leadsWith p l` is `l` beginning with `p`. -/
def leadsWith : List Char → List Char → Bool
  | [], _ => true
  | _ :: _, [] => false
  | p :: ps, c :: cs => p == c && leadsWith ps cs

/-- Python `pat in s` semantics on whole strings: some suffix of `l` starts with `pat`. -/
def hasSub (pat : List Char) : List Char → Bool
  | [] => leadsWith pat []
  | c :: cs => leadsWith pat (c :: cs) || hasSub pat cs

/-- Python `pat in content` for strings. -/
def containsSub (content pat : String) : Bool := hasSub pat.data content.data

/-- The dict shape shared by a successfully parsed model response and the
fallback record (`quality_rating` may be absent from a parsed response). -/
structure ExtractionData where
  transcription : String
  key_concepts : List String
  themes : List String
  questions_or_insights : List String
  suggested_tags : List String
  quality_rating : Option ℕ
  notes : String
deriving DecidableEq

/-- The fallback record synthesized when `json.loads` raises
`JSONDecodeError` (source lines 135–143). -/
def fallbackRecord (content : String) : ExtractionData :=
  { transcription := content
    key_concepts := []
    themes := []
    questions_or_insights := []
    suggested_tags := []
    quality_rating := some 3
    notes := "Response was not in expected JSON format" }

/-- The three-tier response parse of `extract_text_and_analyze`
(source lines 122–143).  `jsonParse` is the external `json.loads`:
`none` models a raised `JSONDecodeError`, `some d` a successful parse into
the expected object shape.  Tier selection mirrors the source: a ```` ```json ````
fence, else any ```` ``` ```` fence, else the whole body; on parse failure the
fallback record is synthesized from the raw body. -/
def parse_response (jsonParse : String → Option ExtractionData) (content : String) :
    ExtractionData :=
  let json_str :=
    if containsSub content "```json" then
      ((((content.splitOn "```json").getD 1 "").splitOn "```").headD "").trim
    else if containsSub content "```" then
      ((((content.splitOn "```").getD 1 "").splitOn "```").headD "").trim
    else content
  match jsonParse json_str with
  | some d => d
  | none => fallbackRecord content

/-- GPT-4o input rate: $2.50 per 1M tokens (source line 159). -/
def inputRate : ℚ := 5 / 2

/-- GPT-4o output rate: $10.00 per 1M tokens (source line 160). -/
def outputRate : ℚ := 10

/-- The per-call cost `input_cost + output_cost` (source lines 159–161). -/
def call_cost (prompt_tokens completion_tokens : ℕ) : ℚ :=
  (prompt_tokens : ℚ) / 1000000 * inputRate + (completion_tokens : ℚ) / 1000000 * outputRate

/-- Round half to even to an integer, the rounding of Python `round`
(idealized over exact rationals; the source value is a binary float). -/
def roundHalfEven (x : ℚ) : ℤ :=
  let f := x.floor
  if x - (f : ℚ) < 1 / 2 then f
  else if 1 / 2 < x - (f : ℚ) then f + 1
  else if f % 2 = 0 then f else f + 1

/-- Python `round(x, 4)` (idealized over exact rationals). -/
def pyRound4 (x : ℚ) : ℚ := (roundHalfEven (x * 10000) : ℚ) / 10000

/-- The `metadata` sub-dict attached to an extraction result
(timestamp and image path elided: no claim consults them). -/
structure ExtMeta where
  model : String
  prompt_tokens : ℕ
  completion_tokens : ℕ
  total_tokens : ℕ
  estimated_cost : ℚ
  total_session_cost : ℚ
deriving DecidableEq

/-- The dict returned by `extract_text_and_analyze`: parsed (or fallback)
fields plus the `metadata` sub-dict. -/
structure ExtractionResult where
  data : ExtractionData
  metadata : ExtMeta
deriving DecidableEq

/-- Embeds `VisionOCR.extract_text_and_analyze` from the model response on, also
returning the updated `self.total_cost`.  Inputs: the external `json.loads`,
`self.model`, the response body, the three reported token counts, and the
session cost before the call. -/
def extract_text_and_analyze (jsonParse : String → Option ExtractionData)
    (model content : String) (prompt_tokens completion_tokens total_tokens : ℕ)
    (total_cost : ℚ) : ExtractionResult × ℚ :=
  let data := parse_response jsonParse content
  let cost := call_cost prompt_tokens completion_tokens
  let total := total_cost + cost
  ({ data := data
     metadata :=
      { model := model
        prompt_tokens := prompt_tokens
        completion_tokens := completion_tokens
        total_tokens := total_tokens
        estimated_cost := pyRound4 cost
        total_session_cost := pyRound4 total } },
   total)

/-- The value of `self.total_cost` after a sequence of calls, each given by its
`(prompt_tokens, completion_tokens, total_tokens)` triple, starting from
`init` (a fresh `VisionOCR` starts at `0.0`). -/
def session_cost (jsonParse : String → Option ExtractionData) (model content : String)
    (calls : List (ℕ × ℕ × ℕ)) (init : ℚ) : ℚ :=
  calls.foldl
    (fun total c => (extract_text_and_analyze jsonParse model content c.1 c.2.1 c.2.2 total).2)
    init

/-! ## Ingestion orchestrator (`ingest_notes.py`)

Filesystem writes and the two sub-components are the orchestrator's external
calls.  Each is modelled by an `Except String` outcome supplied in a `RunEnv`:
`.error e` is the Python exception with message `e` (caught by the
`try/except` of `process_single_image`), `.ok` the normal return. -/

/-- Pipeline configuration fixed at `NoteIngestionPipeline.__init__`. -/
structure PipelineCfg where
  preprocess_enabled : Bool
  save_processed : Bool
deriving DecidableEq

/-- Outcomes of the external calls one `process_single_image` run makes, in
source order: the `preprocessor.process_image` call, the
`save_processed_image` write, the `cv2.imwrite` to a temp file (the
`save_processed = False` branch), the `ocr.extract_text_and_analyze` call, and
the two `write_text` calls. -/
structure RunEnv where
  preprocess : Except String (Image × PMeta)
  save_image : Except String Unit
  temp_write : Except String Unit
  ocr : Except String ExtractionResult
  write_markdown : Except String Unit
  write_json : Except String Unit

/-- The result dict of `process_single_image` (`source_image` and the
timestamp elided; `stem` and `ts` name-building inputs are parameters).
`none` in an `Option` field is the key being absent from the dict. -/
structure PResult where
  success : Bool
  error : Option String
  preprocessed_image : Option String
  preprocessing : Option PMeta
  ocr : Option ExtractionResult
  output_markdown : Option String
  output_json : Option String
deriving DecidableEq

/-- The freshly initialized result dict (source lines 83–87). -/
def initResult : PResult :=
  { success := false, error := none, preprocessed_image := none, preprocessing := none
    ocr := none, output_markdown := none, output_json := none }

/-- Embeds `NoteIngestionPipeline.process_single_image`.  `stem` is
`image_path.stem` and `ts` the `datetime.now()` timestamp string used in the
output basename.  The `try` block runs the stages in source order; the first
`.error` outcome jumps to the `except` handler, which records the message on
whatever the result dict holds at that point and returns it. -/
def process_single_image (cfg : PipelineCfg) (env : RunEnv) (stem ts : String) : PResult :=
  let afterPre : PResult → PResult := fun r =>
    match env.ocr with
    | .error e => { r with error := some e }
    | .ok o =>
      let r := { r with ocr := some o, success := true }
      match env.write_markdown with
      | .error e => { r with error := some e }
      | .ok _ =>
        let r := { r with output_markdown := some ("notes/" ++ ts ++ "_" ++ stem ++ ".md") }
        match env.write_json with
        | .error e => { r with error := some e }
        | .ok _ => { r with output_json := some ("notes/" ++ ts ++ "_" ++ stem ++ ".json") }
  if cfg.preprocess_enabled then
    match env.preprocess with
    | .error e => { initResult with error := some e }
    | .ok pm =>
      if cfg.save_processed then
        match env.save_image with
        | .error e => { initResult with error := some e }
        | .ok _ =>
          afterPre { initResult with
            preprocessed_image := some ("processed_images/" ++ stem ++ "_processed.jpg")
            preprocessing := some pm.2 }
      else
        match env.temp_write with
        | .error e => { initResult with error := some e }
        | .ok _ => afterPre initResult
  else afterPre initResult

/-- The batch summary dict of `process_directory` (timestamp and the embedded
`results` list elided — the results are the other component of the returned
pair). -/
structure BatchSummary where
  total_images : ℕ
  successful : ℕ
  failed : ℕ
  total_cost : ℚ
deriving DecidableEq

/-- Embeds `NoteIngestionPipeline.process_directory` from the sorted glob
result on.  `files` is `sorted(directory.glob(pattern))`, `runOne` the
per-file `process_single_image` call, `ocr_total_cost` the client's
`self.ocr.total_cost` read when the summary is built.  The second component
is the batch summary written to disk: `none` means no summary file is written
(the early return on an empty glob, source lines 239–241). -/
def process_directory (runOne : String → PResult) (files : List String)
    (ocr_total_cost : ℚ) : List PResult × Option BatchSummary :=
  if files.isEmpty then ([], none)
  else
    let results := files.map runOne
    let successful := results.countP (·.success)
    (results,
     some { total_images := results.length
            successful := successful
            failed := results.length - successful
            total_cost := ocr_total_cost })

/-! ## Spec-side definitions and concrete sample inputs used by the theorems -/

/-- The five-bin histogram `np.histogram(angles, bins=[0,45,135,225,315,360])`
as a list, for stating which bin `detect_orientation` selects. -/
def hist5 (angles : List ℚ) : List ℕ :=
  [binCount angles 0 45 false, binCount angles 45 135 false, binCount angles 135 225 false,
   binCount angles 225 315 false, binCount angles 315 360 true]

/-- Formalises the spec wording of claim C6, for comparison with the source's
`detect_orientation`: the wrap-around bin at 0°/360° is merged into the 0°
bucket before the dominant (highest-count) bucket picks the correction angle. -/
def detect_orientation_merged (angles : List ℚ) : ℚ :=
  if angles.isEmpty then 0
  else
    let b0 := binCount angles 0 45 false + binCount angles 315 360 true
    let b1 := binCount angles 45 135 false
    let b2 := binCount angles 135 225 false
    let b3 := binCount angles 225 315 false
    let m := max b0 (max b1 (max b2 b3))
    if b0 = m then 0 else if b1 = m then 90 else if b2 = m then 180 else 270

/-- A concrete 1×1 image used to instantiate universally quantified theorems. -/
def sampleImage : Image := ⟨1, 1, fun _ _ => 0⟩

/-- A line detector that finds no lines (`cv2.HoughLines` returning `None`). -/
def houghNone : Image → List ℚ := fun _ => []

/-- A trivial stand-in for the external `cv2.warpAffine` fallback. -/
def idWarp : Image → ℚ → Image := fun i _ => i

/-- A trivial stand-in for the external bilateral / CLAHE filters. -/
def idFilter : Image → Image := fun i => i

/-- A concrete normalization trace, as `process_image` would produce for an
already-upright image with denoising and enhancement on. -/
def sampleMeta : PMeta :=
  { original_size := (1, 1), rotation_applied := 0
    steps := ["denoised", "contrast_enhanced"], final_size := (1, 1) }

/-- A concrete extraction result for instantiating orchestrator runs. -/
def sampleExtraction : ExtractionResult :=
  { data := fallbackRecord "hi"
    metadata :=
      { model := "gpt-4o", prompt_tokens := 1, completion_tokens := 1, total_tokens := 2
        estimated_cost := 0, total_session_cost := 0 } }

/-- A run in which every stage succeeds except the markdown `write_text`. -/
def envWriteFail : RunEnv :=
  { preprocess := .ok (sampleImage, sampleMeta), save_image := .ok ()
    temp_write := .ok (), ocr := .ok sampleExtraction
    write_markdown := .error "disk full", write_json := .ok () }

/-- A run in which every external call succeeds. -/
def envAllOk : RunEnv :=
  { preprocess := .ok (sampleImage, sampleMeta), save_image := .ok ()
    temp_write := .ok (), ocr := .ok sampleExtraction
    write_markdown := .ok (), write_json := .ok () }

/-- A run in which the extraction call raises and everything else succeeds. -/
def envOcrFail : RunEnv :=
  { preprocess := .ok (sampleImage, sampleMeta), save_image := .ok ()
    temp_write := .ok (), ocr := .error "ExtractionError: service unavailable"
    write_markdown := .ok (), write_json := .ok () }

/-! ## Helper lemmas -/

/-- Four successive exact clockwise quarter-turns are the identity on buffers. -/
theorem rotate90cw_four (I : Image) :
    rotate90cw (rotate90cw (rotate90cw (rotate90cw I))) = I := by
  obtain ⟨h, w, p⟩ := I
  simp only [rotate90cw]
  congr 1
  funext r c
  congr 1 <;> exact Fin.ext (by simp; omega)

/-- A rotation step name is never the denoise step name (it starts with `r`). -/
theorem rotStepName_ne_denoised (a : ℚ) : rotStepName a ≠ "denoised" := by
  intro h
  have := congrArg (fun s => s.data.head?) h
  simp [rotStepName, String.data_append] at this

/-- A rotation step name is never the contrast step name. -/
theorem rotStepName_ne_contrast (a : ℚ) : rotStepName a ≠ "contrast_enhanced" := by
  intro h
  have := congrArg (fun s => s.data.head?) h
  simp [rotStepName, String.data_append] at this

/-- Symmetric form of `rotStepName_ne_denoised` for `simp`. -/
theorem denoised_ne_rotStepName (a : ℚ) : "denoised" ≠ rotStepName a :=
  fun h => rotStepName_ne_denoised a h.symm

/-- Symmetric form of `rotStepName_ne_contrast` for `simp`. -/
theorem contrast_ne_rotStepName (a : ℚ) : "contrast_enhanced" ≠ rotStepName a :=
  fun h => rotStepName_ne_contrast a h.symm

/-- Case analysis for `argmax5`: the returned index attains the maximum and
every earlier bin is strictly smaller (`np.argmax` takes the first maximum). -/
theorem argmax5_cases (c0 c1 c2 c3 c4 : ℕ) :
    (argmax5 c0 c1 c2 c3 c4 = 0 ∧ c1 ≤ c0 ∧ c2 ≤ c0 ∧ c3 ≤ c0 ∧ c4 ≤ c0) ∨
    (argmax5 c0 c1 c2 c3 c4 = 1 ∧ c0 < c1 ∧ c2 ≤ c1 ∧ c3 ≤ c1 ∧ c4 ≤ c1) ∨
    (argmax5 c0 c1 c2 c3 c4 = 2 ∧ c0 < c2 ∧ c1 < c2 ∧ c3 ≤ c2 ∧ c4 ≤ c2) ∨
    (argmax5 c0 c1 c2 c3 c4 = 3 ∧ c0 < c3 ∧ c1 < c3 ∧ c2 < c3 ∧ c4 ≤ c3) ∨
    (argmax5 c0 c1 c2 c3 c4 = 4 ∧ c0 < c4 ∧ c1 < c4 ∧ c2 < c4 ∧ c3 < c4) := by
  simp only [argmax5]
  split_ifs with h0 h1 h2 h3
  · exact Or.inl ⟨rfl, by omega, by omega, by omega, by omega⟩
  · exact Or.inr (Or.inl ⟨rfl, by omega, by omega, by omega, by omega⟩)
  · exact Or.inr (Or.inr (Or.inl ⟨rfl, by omega, by omega, by omega, by omega⟩))
  · exact Or.inr (Or.inr (Or.inr (Or.inl ⟨rfl, by omega, by omega, by omega, by omega⟩)))
  · exact Or.inr (Or.inr (Or.inr (Or.inr ⟨rfl, by omega, by omega, by omega, by omega⟩)))

/-- A single call's cost is nonnegative (token counts are naturals, rates
positive). -/
theorem call_cost_nonneg (p c : ℕ) : 0 ≤ call_cost p c := by
  unfold call_cost inputRate outputRate
  positivity

/-- Unfolding the running-cost fold: the session total is the initial total
plus the sum of the per-call costs. -/
theorem session_cost_eq (jp : String → Option ExtractionData) (m s : String)
    (calls : List (ℕ × ℕ × ℕ)) (init : ℚ) :
    session_cost jp m s calls init = init + (calls.map fun c => call_cost c.1 c.2.1).sum := by
  induction calls generalizing init with
  | nil => simp [session_cost]
  | cons c cs ih =>
    have hstep : session_cost jp m s (c :: cs) init
        = session_cost jp m s cs (init + call_cost c.1 c.2.1) := rfl
    rw [hstep, ih]
    simp only [List.map_cons, List.sum_cons]
    ring

/-- Batteries' `Rat.floor` agrees with the mathematical floor. -/
theorem ratFloor_eq_intFloor (q : ℚ) : q.floor = ⌊q⌋ := by
  rw [Rat.floor_def, Rat.floor_def']

/-! ## Claim theorems -/

/-- C1: evaluated at a run whose extraction succeeds but whose markdown write
fails, `process_single_image` returns a result with `success = true`, the
write error recorded, and neither output path set — the source sets
`result['success'] = True` immediately after the OCR call, before the two
output files are written, so a post-extraction write failure does not leave
`success` false as the claimed invariant requires. -/
theorem success_flag_survives_write_error :
    (process_single_image ⟨true, true⟩ envWriteFail "img" "20250101_000000").success = true ∧
    (process_single_image ⟨true, true⟩ envWriteFail "img" "20250101_000000").error
      = some "disk full" ∧
    (process_single_image ⟨true, true⟩ envWriteFail "img" "20250101_000000").output_markdown
      = none ∧
    (process_single_image ⟨true, true⟩ envWriteFail "img" "20250101_000000").output_json
      = none :=
  ⟨rfl, rfl, rfl, rfl⟩

/-- C2 (counterexample): on an empty glob result `process_directory` returns
the empty result sequence but writes no batch summary at all — there is no
persisted `BatchSummary` with `total_images == 0`, contrary to the claim. -/
theorem process_directory_empty_writes_no_summary :
    process_directory (fun _ => initResult) ([] : List String) 0 = ([], none) := rfl

/-- C2 (amended): for every per-image processor and running cost, a directory
with zero matching files yields an empty result sequence and no batch
summary file (the summary is only produced when at least one file matches). -/
theorem process_directory_empty_result (runOne : String → PResult) (cost : ℚ) :
    process_directory runOne ([] : List String) cost = ([], none) := rfl

/-- C3: when the response body holds no fenced block and the whole body fails
to parse as JSON (a plain unstructured text response), the extraction result
is the synthesized fallback record: `transcription` is the raw body, all four
list fields are empty, `quality_rating` is 3, and `notes` states the response
was not in the expected structured format. -/
theorem plain_text_fallback_record (jsonParse : String → Option ExtractionData)
    (model content : String) (p c t : ℕ) (s : ℚ)
    (h1 : containsSub content "```" = false)
    (h2 : containsSub content "```json" = false)
    (h3 : jsonParse content = none) :
    (extract_text_and_analyze jsonParse model content p c t s).1.data =
      { transcription := content
        key_concepts := []
        themes := []
        questions_or_insights := []
        suggested_tags := []
        quality_rating := some 3
        notes := "Response was not in expected JSON format" } := by
  simp only [extract_text_and_analyze, parse_response, h1, h2, Bool.false_eq_true, if_false, h3]
  rfl

/-- Witness for C3 at the concrete body `"The notes say hello."` with a JSON
parser that fails on every input. -/
theorem plain_text_fallback_record_witness :
    containsSub "The notes say hello." "```" = false ∧
    containsSub "The notes say hello." "```json" = false ∧
    (fun _ => (none : Option ExtractionData)) "The notes say hello." = none ∧
    (extract_text_and_analyze (fun _ => none) "gpt-4o" "The notes say hello." 5 7 12 0).1.data =
      { transcription := "The notes say hello."
        key_concepts := []
        themes := []
        questions_or_insights := []
        suggested_tags := []
        quality_rating := some 3
        notes := "Response was not in expected JSON format" } :=
  ⟨by decide, by decide, rfl,
   plain_text_fallback_record (fun _ => none) "gpt-4o" "The notes say hello." 5 7 12 0
     (by decide) (by decide) rfl⟩

/-- C4 (counterexample): at 10 prompt tokens and 0 completion tokens the
formula gives $1/40000 = $0.000025, but the recorded `estimated_cost` is
`round(call_cost, 4) = 0`, so the record's `estimated_cost` does not equal
`(prompt_tokens/1e6)*2.50 + (completion_tokens/1e6)*10.00` as claimed. -/
theorem estimated_cost_rounded_cex :
    (extract_text_and_analyze (fun _ => none) "gpt-4o" "x" 10 0 10 0).1.metadata.estimated_cost
        ≠ (10 : ℚ) / 1000000 * (5 / 2) + (0 : ℚ) / 1000000 * 10 ∧
    (extract_text_and_analyze (fun _ => none) "gpt-4o" "x" 10 0 10 0).1.metadata.estimated_cost
        = 0 ∧
    (10 : ℚ) / 1000000 * (5 / 2) + (0 : ℚ) / 1000000 * 10 = 1 / 40000 := by
  have hcall : call_cost 10 0 = 1 / 40000 := by
    norm_num [call_cost, inputRate, outputRate]
  have hscale : call_cost 10 0 * 10000 = 1 / 4 := by rw [hcall]; norm_num
  have hflr : ((1 : ℚ) / 4).floor = 0 := by
    rw [ratFloor_eq_intFloor, Int.floor_eq_iff]
    norm_num
  have hest : (extract_text_and_analyze (fun _ => none) "gpt-4o" "x" 10 0 10
      0).1.metadata.estimated_cost = 0 := by
    show pyRound4 (call_cost 10 0) = 0
    simp only [pyRound4, roundHalfEven, hscale, hflr]
    norm_num
  refine ⟨?_, hest, by norm_num⟩
  rw [hest]
  norm_num

/-- C4 (amended): the unrounded cost of each call equals
`(prompt_tokens/1e6)*2.50 + (completion_tokens/1e6)*10.00` and is what is
added to the running session total; the recorded `estimated_cost` is that
value rounded to 4 decimal places; the session total after any sequence of
calls equals the sum of the unrounded per-call costs; and the running total
never decreases along the call sequence. -/
theorem cost_accounting_amended (jp : String → Option ExtractionData) (m s : String)
    (calls : List (ℕ × ℕ × ℕ)) :
    session_cost jp m s calls 0 = (calls.map fun c => call_cost c.1 c.2.1).sum ∧
    (∀ p c t prev,
      (extract_text_and_analyze jp m s p c t prev).1.metadata.estimated_cost
          = pyRound4 (call_cost p c) ∧
      (extract_text_and_analyze jp m s p c t prev).2 = prev + call_cost p c) ∧
    (∀ pre, pre <+: calls → session_cost jp m s pre 0 ≤ session_cost jp m s calls 0) := by
  refine ⟨by simpa using session_cost_eq jp m s calls 0, fun p c t prev => ⟨rfl, rfl⟩, ?_⟩
  rintro pre ⟨rest, rfl⟩
  rw [session_cost_eq, session_cost_eq]
  simp only [List.map_append, List.sum_append, zero_add, le_add_iff_nonneg_right]
  exact List.sum_nonneg
    (by simp only [List.mem_map]; rintro x ⟨c, -, rfl⟩; exact call_cost_nonneg c.1 c.2.1)

/-- Witness for C4 (amended) at a concrete two-call sequence: the running
total after the first call never exceeds the total after both. -/
theorem cost_accounting_amended_witness :
    session_cost (fun _ => none) "gpt-4o" "x" [(10, 0, 10)] 0
      ≤ session_cost (fun _ => none) "gpt-4o" "x" [(10, 0, 10), (200, 300, 500)] 0 :=
  (cost_accounting_amended (fun _ => none) "gpt-4o" "x" [(10, 0, 10), (200, 300, 500)]).2.2
    [(10, 0, 10)] ⟨[(200, 300, 500)], rfl⟩

/-- C5: when the line detector finds no lines, `detect_orientation` returns
0°, and `process_image` applies no rotation: `rotation_applied` stays 0 and
the trace records only (at most) the denoise and contrast steps, whatever the
flags are. -/
theorem no_lines_orientation_noop (hough : Image → List ℚ) (wa : Image → ℚ → Image)
    (bil cla : Image → Image) (img : Image) (ao en dn : Bool)
    (h : hough img = []) :
    detect_orientation (hough img) = 0 ∧
    (process_image hough wa bil cla img ao en dn).2.rotation_applied = 0 ∧
    ∀ s ∈ (process_image hough wa bil cla img ao en dn).2.steps,
      s = "denoised" ∨ s = "contrast_enhanced" := by
  have hd : detect_orientation (hough img) = 0 := by simp [h, detect_orientation]
  refine ⟨hd, ?_, ?_⟩ <;>
    cases ao <;> cases en <;> cases dn <;>
      simp [process_image, hd]

/-- Witness for C5: a detector returning no lines on the concrete 1×1 image,
with all three flags enabled. -/
theorem no_lines_orientation_noop_witness :
    houghNone sampleImage = [] ∧
    (detect_orientation (houghNone sampleImage) = 0 ∧
     (process_image houghNone idWarp idFilter idFilter sampleImage true true
        true).2.rotation_applied = 0 ∧
     ∀ s ∈ (process_image houghNone idWarp idFilter idFilter sampleImage true true
        true).2.steps, s = "denoised" ∨ s = "contrast_enhanced") :=
  ⟨rfl, no_lines_orientation_noop houghNone idWarp idFilter idFilter sampleImage true true
    true rfl⟩

/-- C6 (counterexample): on the angle multiset
`[10,10,10,350,350,350,90,90,90,90]` the merged 0° bucket holds 6 lines
(3 in `[0,45)` plus 3 in `[315,360]`) against 4 in the 90° bucket, so the
claim's merged dominant-bucket rule demands 0° — as
`detect_orientation_merged` computes — but the source's `np.argmax` compares
the five bins unmerged and returns 90°. -/
theorem dominant_bucket_unmerged_cex :
    binCount [10, 10, 10, 350, 350, 350, 90, 90, 90, 90] 0 45 false = 3 ∧
    binCount [10, 10, 10, 350, 350, 350, 90, 90, 90, 90] 315 360 true = 3 ∧
    binCount [10, 10, 10, 350, 350, 350, 90, 90, 90, 90] 45 135 false = 4 ∧
    detect_orientation_merged [10, 10, 10, 350, 350, 350, 90, 90, 90, 90] = 0 ∧
    detect_orientation [10, 10, 10, 350, 350, 350, 90, 90, 90, 90] = 90 := by
  refine ⟨by decide, by decide, by decide, by decide, by decide⟩

/-- C6 (amended): for every non-empty angle list, `detect_orientation` returns
the angle of the first histogram bin (over edges 45/135/225/315, the two
partial bins `[0,45)` and `[315,360]` counted separately) attaining the
highest count, under the mapping bins 1 and 5 ↦ 0°, bin 2 ↦ 90°,
bin 3 ↦ 180°, bin 4 ↦ 270°; the two 0° bins are never merged before the
comparison. -/
theorem dominant_bin_first_max (angles : List ℚ) (h : angles ≠ []) :
    ∃ i : ℕ, i < 5 ∧
      (∀ j : ℕ, j < 5 → (hist5 angles).getD j 0 ≤ (hist5 angles).getD i 0) ∧
      (∀ j : ℕ, j < i → (hist5 angles).getD j 0 < (hist5 angles).getD i 0) ∧
      detect_orientation angles = [0, 90, 180, 270, 0].getD i (0 : ℚ) := by
  have he : angles.isEmpty = false := by simpa [List.isEmpty_iff] using h
  simp only [detect_orientation, he, Bool.false_eq_true, if_false]
  rcases argmax5_cases (binCount angles 0 45 false) (binCount angles 45 135 false)
      (binCount angles 135 225 false) (binCount angles 225 315 false)
      (binCount angles 315 360 true) with
    ⟨ha, h1, h2, h3, h4⟩ | ⟨ha, h1, h2, h3, h4⟩ | ⟨ha, h1, h2, h3, h4⟩ |
    ⟨ha, h1, h2, h3, h4⟩ | ⟨ha, h1, h2, h3, h4⟩ <;>
    [exact ⟨0, by omega, fun j hj => by interval_cases j <;> simp [hist5] <;> omega,
       fun j hj => by omega, by simp [ha]⟩;
     exact ⟨1, by omega, fun j hj => by interval_cases j <;> simp [hist5] <;> omega,
       fun j hj => by interval_cases j <;> simp [hist5] <;> omega, by simp [ha]⟩;
     exact ⟨2, by omega, fun j hj => by interval_cases j <;> simp [hist5] <;> omega,
       fun j hj => by interval_cases j <;> simp [hist5] <;> omega, by simp [ha]⟩;
     exact ⟨3, by omega, fun j hj => by interval_cases j <;> simp [hist5] <;> omega,
       fun j hj => by interval_cases j <;> simp [hist5] <;> omega, by simp [ha]⟩;
     exact ⟨4, by omega, fun j hj => by interval_cases j <;> simp [hist5] <;> omega,
       fun j hj => by interval_cases j <;> simp [hist5] <;> omega, by simp [ha]⟩]

/-- Witness for C6 (amended) at the concrete non-empty angle list `[90]`. -/
theorem dominant_bin_first_max_witness :
    ([(90 : ℚ)] ≠ []) ∧
    (∃ i : ℕ, i < 5 ∧
      (∀ j : ℕ, j < 5 → (hist5 [(90 : ℚ)]).getD j 0 ≤ (hist5 [(90 : ℚ)]).getD i 0) ∧
      (∀ j : ℕ, j < i → (hist5 [(90 : ℚ)]).getD j 0 < (hist5 [(90 : ℚ)]).getD i 0) ∧
      detect_orientation [(90 : ℚ)] = [0, 90, 180, 270, 0].getD i (0 : ℚ)) :=
  ⟨List.cons_ne_nil _ _, dominant_bin_first_max [(90 : ℚ)] (List.cons_ne_nil _ _)⟩

/-- C7: four successive `rotate_image` calls with angle 90 return any image
to its original pixel content and dimensions, whatever the external
arbitrary-angle fallback is (the 90° case never reaches it). -/
theorem rotate_image_four_quarter_turns (warpAffine : Image → ℚ → Image) (I : Image) :
    rotate_image warpAffine (rotate_image warpAffine
      (rotate_image warpAffine (rotate_image warpAffine I 90) 90) 90) 90 = I := by
  simp only [rotate_image]
  norm_num
  exact rotate90cw_four I

/-- C8: the trace's `steps` list is always a sublist of
`[rotated_<angle>deg, denoised, contrast_enhanced]` in that fixed order, and
each stage's step is present exactly when its flag is on (rotation also
requires a nonzero detected angle). -/
theorem trace_steps_fixed_order (hough : Image → List ℚ) (wa : Image → ℚ → Image)
    (bil cla : Image → Image) (img : Image) (ao en dn : Bool) :
    ((process_image hough wa bil cla img ao en dn).2.steps).Sublist
      [rotStepName (detect_orientation (hough img)), "denoised", "contrast_enhanced"] ∧
    ("denoised" ∈ (process_image hough wa bil cla img ao en dn).2.steps ↔ dn = true) ∧
    ("contrast_enhanced" ∈ (process_image hough wa bil cla img ao en dn).2.steps
      ↔ en = true) ∧
    (rotStepName (detect_orientation (hough img))
        ∈ (process_image hough wa bil cla img ao en dn).2.steps
      ↔ ao = true ∧ detect_orientation (hough img) ≠ 0) := by
  refine ⟨?_, ?_, ?_, ?_⟩ <;>
    cases ao <;> cases en <;> cases dn <;>
      simp [process_image] <;> (try split_ifs) <;>
        simp_all [rotStepName_ne_denoised, rotStepName_ne_contrast,
          denoised_ne_rotStepName, contrast_ne_rotStepName]

/-- C10: whenever the detected lines are non-empty and every angle lies in the
Hough convention range 0–180°, the two bins covering 225–315° and 315–360°
count zero lines and the returned correction angle is 0°, 90° or 180° —
never 270°. -/
theorem hough_range_never_270 (angles : List ℚ) (h1 : angles ≠ [])
    (h2 : ∀ a ∈ angles, 0 ≤ a ∧ a ≤ 180) :
    binCount angles 225 315 false = 0 ∧ binCount angles 315 360 true = 0 ∧
    detect_orientation angles ∈ ({0, 90, 180} : Set ℚ) := by
  have hc3 : binCount angles 225 315 false = 0 := by
    simp only [binCount, List.countP_eq_zero]
    intro a ha
    have := h2 a ha
    simp only [Bool.and_eq_true, decide_eq_true_eq, if_false]
    rintro ⟨hle, -⟩
    linarith [this.2]
  have hc4 : binCount angles 315 360 true = 0 := by
    simp only [binCount, List.countP_eq_zero]
    intro a ha
    have := h2 a ha
    simp only [Bool.and_eq_true, decide_eq_true_eq, if_true]
    rintro ⟨hle, -⟩
    linarith [this.2]
  have he : angles.isEmpty = false := by simpa [List.isEmpty_iff] using h1
  refine ⟨hc3, hc4, ?_⟩
  simp only [detect_orientation, he, Bool.false_eq_true, if_false, hc3, hc4]
  rcases argmax5_cases (binCount angles 0 45 false) (binCount angles 45 135 false)
      (binCount angles 135 225 false) 0 0 with
    ⟨ha, -⟩ | ⟨ha, -⟩ | ⟨ha, -⟩ | ⟨ha, h1', -⟩ | ⟨ha, h1', -⟩ <;>
    simp [ha, Set.mem_insert_iff] <;> omega

/-- Witness for C10 at the concrete single-line list `[90]`, an angle inside
the Hough range. -/
theorem hough_range_never_270_witness :
    (([(90 : ℚ)] ≠ []) ∧ ∀ a ∈ [(90 : ℚ)], 0 ≤ a ∧ a ≤ 180) ∧
    (binCount [(90 : ℚ)] 225 315 false = 0 ∧ binCount [(90 : ℚ)] 315 360 true = 0 ∧
     detect_orientation [(90 : ℚ)] ∈ ({0, 90, 180} : Set ℚ)) :=
  ⟨⟨List.cons_ne_nil _ _, by decide⟩,
   hough_range_never_270 [(90 : ℚ)] (List.cons_ne_nil _ _) (by decide)⟩

/-- C9 (counterexample): with normalization enabled but
`save_processed_images` off, a fully successful run returns a result with no
`preprocessing` entry — the temp-file branch of the source never assigns
`result['preprocessing']`, so the trace is not attached to the final result
as the claim requires. -/
theorem trace_dropped_without_save_cex :
    (process_single_image ⟨true, false⟩ envAllOk "img" "ts").success = true ∧
    (process_single_image ⟨true, false⟩ envAllOk "img" "ts").preprocessing = none :=
  ⟨rfl, rfl⟩

/-- C9 (amended): when both normalization and `save_processed_images` are
enabled and the preprocessing stage and image save succeed, the normalization
trace is attached to the returned result whatever happens in the later
extraction and output-write stages — in particular a later-stage failure
preserves the partial trace for diagnosis. -/
theorem trace_attached_when_saving (cfg : PipelineCfg) (env : RunEnv) (stem ts : String)
    (img : Image) (meta : PMeta)
    (h1 : cfg.preprocess_enabled = true) (h2 : cfg.save_processed = true)
    (h3 : env.preprocess = .ok (img, meta)) (h4 : env.save_image = .ok ()) :
    (process_single_image cfg env stem ts).preprocessing = some meta := by
  simp only [process_single_image, h1, h2, h3, h4, if_true]
  cases env.ocr <;> cases env.write_markdown <;> cases env.write_json <;> rfl

/-- Witness for C9 (amended): a concrete run whose extraction call fails
still carries the trace, with `success = false`. -/
theorem trace_attached_when_saving_witness :
    (process_single_image ⟨true, true⟩ envOcrFail "img" "ts").preprocessing
      = some sampleMeta ∧
    (process_single_image ⟨true, true⟩ envOcrFail "img" "ts").success = false :=
  ⟨trace_attached_when_saving ⟨true, true⟩ envOcrFail "img" "ts" sampleImage sampleMeta
     rfl rfl rfl rfl,
   rfl⟩

end MOnty
